import Mathlib

/-!
Verification of the `cic` compound-interest calculator.

The Rust source (src/calculations.rs, src/server.rs, src/main.rs, src/args.rs)
is shallowly embedded here.  Money amounts and rates, which the source holds in
`f64`, are modelled as exact rationals (`ℚ`); integers (`i32`) are modelled as
`ℤ`.  The projection loop of `Investment::yearly_summary` becomes a fuel-indexed
recursion on the number of remaining years, carrying the same mutable state
(`amount`, `total_interest`) the Rust loop carries.
-/

/-- Embeds `struct Investment` from src/calculations.rs: principal, monthly
contribution, annual interest rate (in percent) and duration in years. -/
structure Investment where
  principal : ℚ
  contribution : ℚ
  rate : ℚ
  years : ℤ
deriving DecidableEq

/-- Embeds `struct YearlySummary` from src/calculations.rs: the snapshot of the
investment at the end of one simulated year. -/
structure YearlySummary where
  year : ℤ
  principal : ℚ
  annual_contribution : ℚ
  total_contribution : ℚ
  annual_interest : ℚ
  total_interest : ℚ
  total_amount : ℚ
deriving DecidableEq

/-- Placeholder snapshot used as the default value for list indexing. -/
def defaultSummary : YearlySummary :=
  ⟨0, 0, 0, 0, 0, 0, 0⟩

/-- Embeds `struct InvestmentParams` from src/server.rs: the deserialized JSON
request body for the `/compound-interests` endpoint. -/
structure InvestmentParams where
  principal : ℚ
  contribution : ℚ
  rate : ℚ
  years : ℤ
deriving DecidableEq

/-- Embeds `Investment::from_params` (src/calculations.rs lines 106-120): the
validating constructor, rejecting any negative field with a single error. -/
def Investment.from_params (params : InvestmentParams) : Except String Investment :=
  if params.principal < 0 ∨ params.contribution < 0 ∨ params.rate < 0 ∨ params.years < 0 then
    Except.error "Negative values are not allowed"
  else
    Except.ok ⟨params.principal, params.contribution, params.rate, params.years⟩

/-- Modelled from the spec: digit-string parsing, the numeric core of Rust's
`str::parse` used by `Investment::from_matches` (the parser itself lives in the
Rust standard library, not in this repository).  Maps a non-empty string of
decimal digits to its value; anything else is a parse failure. -/
def digitsToNat (cs : List Char) : Option ℕ :=
  if cs.isEmpty then none
  else
    cs.foldl
      (fun acc c =>
        acc.bind fun n => if c.isDigit then some (10 * n + (c.toNat - 48)) else none)
      (some 0)

/-- Modelled from the spec: Rust's `str::parse::<f64>().ok()` restricted to the
sign / integer part / optional fraction subset of the float grammar, which
covers every CLI argument the specification exercises.  Exotic float syntax
(exponents, `inf`, `NaN`) is treated as a parse failure. -/
def parseNumber (s : String) : Option ℚ :=
  let core : List Char → Option ℚ := fun cs =>
    match cs.span (fun c => c ≠ '.') with
    | (intPart, []) => (digitsToNat intPart).map fun n => (n : ℚ)
    | (intPart, _dot :: fracPart) =>
      (digitsToNat intPart).bind fun n =>
        (digitsToNat fracPart).map fun f =>
          (n : ℚ) + (f : ℚ) / (10 : ℚ) ^ fracPart.length
  match s.data with
  | '-' :: rest => (core rest).map fun q => -q
  | cs => core cs

/-- Modelled from the spec: Rust's `str::parse::<i32>().ok()` (optional sign
followed by digits; the i32 overflow boundary is not exercised by any claim). -/
def parseInteger (s : String) : Option ℤ :=
  match s.data with
  | '-' :: rest => (digitsToNat rest).map fun n => -(n : ℤ)
  | cs => (digitsToNat cs).map fun n => (n : ℤ)

/-- Embeds the clap `ArgMatches` view that `Investment::from_matches` consumes:
for each of the four flags, the raw string value when the flag was given. -/
structure ArgMatches where
  principal : Option String
  contribution : Option String
  rate : Option String
  years : Option String

/-- Embeds `Investment::from_matches` (src/calculations.rs lines 42-61): each
field is parsed from its CLI string and silently falls back to its default
(principal 0, contribution 1, rate 5, years 0) when absent or unparseable.
No validation is performed on this path. -/
def Investment.from_matches (m : ArgMatches) : Investment :=
  ⟨(m.principal.bind parseNumber).getD 0,
   (m.contribution.bind parseNumber).getD 1,
   (m.rate.bind parseNumber).getD 5,
   (m.years.bind parseInteger).getD 0⟩

/-- Embeds the loop of `Investment::yearly_summary` (src/calculations.rs lines
148-164).  The fuel argument counts the remaining iterations of
`for year in 1..=self.years`; `year`, `amount` and `totalInterest` are the
loop variables, updated exactly as in the source: interest is computed on the
balance before this year's contribution is added. -/
def Investment.yearlySummaryAux (inv : Investment) :
    ℕ → ℤ → ℚ → ℚ → List YearlySummary
  | 0, _, _, _ => []
  | n + 1, year, amount, totalInterest =>
    let annual_contribution := inv.contribution * 12
    let annual_interest := amount * (inv.rate / 100)
    let totalInterest' := totalInterest + annual_interest
    let amount' := amount + (annual_contribution + annual_interest)
    ⟨year, inv.principal, annual_contribution, inv.contribution * 12 * (year : ℚ),
      annual_interest, totalInterest', amount'⟩ ::
      inv.yearlySummaryAux n (year + 1) amount' totalInterest'

/-- Embeds `Investment::yearly_summary` (src/calculations.rs lines 142-166):
runs the yearly loop starting at year 1 with balance `principal` and zero
accumulated interest.  `Int.toNat` reflects that `for year in 1..=years`
performs no iteration when `years ≤ 0`. -/
def Investment.yearly_summary (inv : Investment) : List YearlySummary :=
  inv.yearlySummaryAux inv.years.toNat 1 inv.principal 0

/-- The HTTP responses the `/compound-interests` handler can produce. -/
inductive HttpResponse where
  | ok (body : List YearlySummary)
  | badRequest (msg : String)
deriving DecidableEq

/-- Embeds `calculate_investment` (src/server.rs lines 88-96): builds the
Investment through the validating constructor, mapping its error to a
`400 Bad Request`, and otherwise answers `200 OK` with the yearly summary. -/
def calculate_investment (params : InvestmentParams) : HttpResponse :=
  match Investment.from_params params with
  | Except.error e => HttpResponse.badRequest e
  | Except.ok inv => HttpResponse.ok inv.yearly_summary

/-- Embeds the y-axis upper bound computed inside `plot_summary`
(src/calculations.rs lines 221-225):
`summary.iter().map(|s| s.total_amount).max_by(...)`.  Rust's `max_by` returns
`None` on an empty iterator (keeping the later element on ties); the source
immediately calls `.unwrap()` on this value. -/
def plotYMax (summary : List YearlySummary) : Option ℚ :=
  (summary.map fun s => s.total_amount).foldl
    (fun acc x =>
      match acc with
      | none => some x
      | some m => some (if x < m then m else x))
    none

/-- Outcome of a `plot_summary` call: either the process panics (an `unwrap`
on `None`), or the chart is built with the given y-axis upper bound. -/
inductive PlotOutcome where
  | panicked
  | rendered (yMax : ℚ)
deriving DecidableEq

/-- Embeds the control flow of `plot_summary` (src/calculations.rs lines
210-226) up to the point that decides panic versus rendering: the
`.max_by(...).unwrap()` call panics exactly when the snapshot slice is empty.
The drawing backend itself (file I/O, pixels) is abstracted away: `rendered`
stands for the non-panicking path that builds the chart. -/
def plot_summary (summary : List YearlySummary) : PlotOutcome :=
  match plotYMax summary with
  | none => PlotOutcome.panicked
  | some m => PlotOutcome.rendered m

/-- The balance update performed by one iteration of the yearly loop:
`amount += annual_contribution + annual_interest`. -/
def stepAmount (inv : Investment) (amount : ℚ) : ℚ :=
  amount + (inv.contribution * 12 + amount * (inv.rate / 100))

/-- Interest accumulated by the first `n` loop iterations when the balance
starts at `a`: iteration `k` contributes interest on the balance reached
after `k` earlier iterations. -/
def interestAccrued (inv : Investment) (a : ℚ) : ℕ → ℚ
  | 0 => 0
  | n + 1 => interestAccrued inv a n + (stepAmount inv)^[n] a * (inv.rate / 100)

/-! Helper lemmas: a closed-form characterization of the loop. -/

lemma yearlySummaryAux_length (inv : Investment) :
    ∀ (n : ℕ) (year : ℤ) (a t : ℚ), (inv.yearlySummaryAux n year a t).length = n := by
  intro n
  induction n with
  | zero => intro year a t; rfl
  | succ n ih =>
    intro year a t
    simp [Investment.yearlySummaryAux, ih]

lemma interestAccrued_succ_front (inv : Investment) (a : ℚ) (n : ℕ) :
    interestAccrued inv a (n + 1) =
      a * (inv.rate / 100) + interestAccrued inv (stepAmount inv a) n := by
  induction n with
  | zero => simp [interestAccrued]
  | succ n ih =>
    rw [interestAccrued, ih, interestAccrued, Function.iterate_succ_apply]
    ring

lemma yearlySummaryAux_getD (inv : Investment) :
    ∀ (n i : ℕ) (year : ℤ) (a t : ℚ), i < n →
      (inv.yearlySummaryAux n year a t).getD i defaultSummary =
        ⟨year + i, inv.principal, inv.contribution * 12,
          inv.contribution * 12 * ((year : ℚ) + (i : ℚ)),
          (stepAmount inv)^[i] a * (inv.rate / 100),
          t + interestAccrued inv a (i + 1),
          (stepAmount inv)^[i + 1] a⟩ := by
  intro n
  induction n with
  | zero => intro i year a t h; exact absurd h (Nat.not_lt_zero i)
  | succ n ih =>
    intro i year a t _h
    cases i with
    | zero =>
      simp only [Investment.yearlySummaryAux, List.getD_cons_zero]
      simp [interestAccrued, stepAmount]
    | succ i =>
      have h' : i < n := Nat.lt_of_succ_lt_succ _h
      simp only [Investment.yearlySummaryAux, List.getD_cons_succ]
      rw [show a + (inv.contribution * 12 + a * (inv.rate / 100)) = stepAmount inv a from rfl,
        ih i (year + 1) (stepAmount inv a) (t + a * (inv.rate / 100)) h']
      congr 1
      · omega
      · push_cast; ring
      · rw [interestAccrued_succ_front inv a (i + 1)]
        ring

lemma yearly_summary_getD (inv : Investment) (i : ℕ) (h : i < inv.years.toNat) :
    inv.yearly_summary.getD i defaultSummary =
      ⟨1 + i, inv.principal, inv.contribution * 12,
        inv.contribution * 12 * (1 + (i : ℚ)),
        (stepAmount inv)^[i] inv.principal * (inv.rate / 100),
        interestAccrued inv inv.principal (i + 1),
        (stepAmount inv)^[i + 1] inv.principal⟩ := by
  have := yearlySummaryAux_getD inv inv.years.toNat i 1 inv.principal 0 h
  rw [Investment.yearly_summary, this]
  simp

lemma yearly_summary_length (inv : Investment) :
    inv.yearly_summary.length = inv.years.toNat :=
  yearlySummaryAux_length inv inv.years.toNat 1 inv.principal 0

lemma stepAmount_iterate_decomp (inv : Investment) (n : ℕ) :
    (stepAmount inv)^[n] inv.principal =
      inv.principal + inv.contribution * 12 * (n : ℚ) +
        interestAccrued inv inv.principal n := by
  induction n with
  | zero => simp [interestAccrued]
  | succ n ih =>
    rw [Function.iterate_succ_apply', ih, stepAmount, interestAccrued, ih]
    push_cast
    ring

lemma stepAmount_iterate_nonneg (inv : Investment)
    (hp : 0 ≤ inv.principal) (hc : 0 ≤ inv.contribution) (hr : 0 ≤ inv.rate) :
    ∀ n, 0 ≤ (stepAmount inv)^[n] inv.principal := by
  intro n
  induction n with
  | zero => simpa using hp
  | succ n ih =>
    rw [Function.iterate_succ_apply', stepAmount]
    have h1 : 0 ≤ inv.contribution * 12 := by positivity
    have h2 : 0 ≤ (stepAmount inv)^[n] inv.principal * (inv.rate / 100) := by positivity
    linarith

lemma stepAmount_iterate_rate_zero (inv : Investment) (hr : inv.rate = 0) (a : ℚ) :
    ∀ n, (stepAmount inv)^[n] a = a + inv.contribution * 12 * (n : ℚ) := by
  intro n
  induction n with
  | zero => simp
  | succ n ih =>
    rw [Function.iterate_succ_apply', ih, stepAmount, hr]
    push_cast
    ring

lemma interestAccrued_rate_zero (inv : Investment) (hr : inv.rate = 0) (a : ℚ) :
    ∀ n, interestAccrued inv a n = 0 := by
  intro n
  induction n with
  | zero => rfl
  | succ n ih => rw [interestAccrued, ih, hr]; ring

lemma getD_of_mem {α : Type} (l : List α) (d : α) (x : α) (hx : x ∈ l) :
    ∃ i, i < l.length ∧ l.getD i d = x := by
  obtain ⟨⟨i, hi⟩, h⟩ := List.mem_iff_get.mp hx
  refine ⟨i, hi, ?_⟩
  rw [List.getD_eq_getElem?_getD, List.getElem?_eq_getElem hi]
  simpa using h

/-! Claim theorems. -/

/-- Claim C1: for every valid Investment (all four fields non-negative), each
year's annual_interest in the sequence returned by yearly_summary equals the
previous year's ending balance times rate/100 — the year-0 balance being the
principal — computed before that year's contribution is added; and each year's
total_amount equals the previous balance plus contribution × 12 plus that
annual_interest. -/
theorem yearly_summary_interest_recurrence (inv : Investment)
    (hp : 0 ≤ inv.principal) (hc : 0 ≤ inv.contribution)
    (hr : 0 ≤ inv.rate) (hy : 0 ≤ inv.years) :
    ∀ i, i < inv.yearly_summary.length →
      (inv.yearly_summary.getD i defaultSummary).annual_interest =
        (if i = 0 then inv.principal
         else (inv.yearly_summary.getD (i - 1) defaultSummary).total_amount) *
          (inv.rate / 100) ∧
      (inv.yearly_summary.getD i defaultSummary).total_amount =
        (if i = 0 then inv.principal
         else (inv.yearly_summary.getD (i - 1) defaultSummary).total_amount) +
          inv.contribution * 12 +
          (inv.yearly_summary.getD i defaultSummary).annual_interest := by
  intro i hi
  rw [yearly_summary_length inv] at hi
  cases i with
  | zero =>
    rw [yearly_summary_getD inv 0 hi]
    refine ⟨by norm_num, ?_⟩
    show (stepAmount inv)^[0 + 1] inv.principal = _
    rw [Function.iterate_succ_apply', stepAmount]
    norm_num
    ring
  | succ j =>
    have hj : j < inv.years.toNat := Nat.lt_of_succ_lt hi
    rw [yearly_summary_getD inv (j + 1) hi, if_neg (Nat.succ_ne_zero j)]
    simp only [Nat.succ_sub_one]
    rw [yearly_summary_getD inv j hj]
    refine ⟨rfl, ?_⟩
    show (stepAmount inv)^[(j + 1) + 1] inv.principal = _
    rw [Function.iterate_succ_apply', stepAmount]
    ring

/-- Witness for C1 at principal 1000, contribution 100, rate 5, years 3:
the first year's interest is 1000 × (5/100). -/
theorem yearly_summary_interest_recurrence_witness :
    ((Investment.mk 1000 100 5 3).yearly_summary.getD 0 defaultSummary).annual_interest =
      1000 * ((5 : ℚ) / 100) := by
  have h := yearly_summary_interest_recurrence ⟨1000, 100, 5, 3⟩
    (by norm_num) (by norm_num) (by norm_num) (by norm_num) 0 (by decide)
  simpa using h.1

/-- Claim C2: yearly_summary returns exactly `years` snapshots, the i-th
(0-based) snapshot having year i + 1; in particular for years = 0 the output
is empty regardless of the other inputs, with no error. -/
theorem yearly_summary_length_and_years (inv : Investment) (hy : 0 ≤ inv.years) :
    ((inv.yearly_summary.length : ℤ) = inv.years) ∧
    (∀ i, i < inv.yearly_summary.length →
      (inv.yearly_summary.getD i defaultSummary).year = (i : ℤ) + 1) ∧
    (inv.years = 0 → inv.yearly_summary = []) := by
  refine ⟨?_, ?_, ?_⟩
  · rw [yearly_summary_length inv, Int.toNat_of_nonneg hy]
  · intro i hi
    rw [yearly_summary_length inv] at hi
    rw [yearly_summary_getD inv i hi]
    show 1 + (i : ℤ) = (i : ℤ) + 1
    ring
  · intro h0
    have hz : inv.years.toNat = 0 := by rw [h0]; rfl
    rw [Investment.yearly_summary, hz]
    rfl

/-- Witness for C2 at principal 1000, contribution 100, rate 5, years 3:
the summary has exactly three snapshots. -/
theorem yearly_summary_length_and_years_witness :
    (((Investment.mk 1000 100 5 3).yearly_summary.length : ℤ) = 3) := by
  have h := yearly_summary_length_and_years ⟨1000, 100, 5, 3⟩ (by norm_num)
  simpa using h.1

/-- Claim C3: on the input principal 1000, contribution 100, rate 5, years 3,
yearly_summary yields three snapshots whose values match the spec's table
within 1e-2 absolute tolerance. -/
theorem yearly_summary_test_vector :
    (Investment.mk 1000 100 5 3).yearly_summary.length = 3 ∧
    (|((Investment.mk 1000 100 5 3).yearly_summary.getD 0 defaultSummary).annual_contribution
        - 1200| < 1 / 100 ∧
     |((Investment.mk 1000 100 5 3).yearly_summary.getD 0 defaultSummary).annual_interest
        - 50| < 1 / 100 ∧
     |((Investment.mk 1000 100 5 3).yearly_summary.getD 0 defaultSummary).total_contribution
        - 1200| < 1 / 100 ∧
     |((Investment.mk 1000 100 5 3).yearly_summary.getD 0 defaultSummary).total_interest
        - 50| < 1 / 100 ∧
     |((Investment.mk 1000 100 5 3).yearly_summary.getD 0 defaultSummary).total_amount
        - 2250| < 1 / 100) ∧
    (|((Investment.mk 1000 100 5 3).yearly_summary.getD 1 defaultSummary).annual_interest
        - 112.5| < 1 / 100 ∧
     |((Investment.mk 1000 100 5 3).yearly_summary.getD 1 defaultSummary).total_contribution
        - 2400| < 1 / 100 ∧
     |((Investment.mk 1000 100 5 3).yearly_summary.getD 1 defaultSummary).total_interest
        - 162.5| < 1 / 100 ∧
     |((Investment.mk 1000 100 5 3).yearly_summary.getD 1 defaultSummary).total_amount
        - 3562.5| < 1 / 100) ∧
    (|((Investment.mk 1000 100 5 3).yearly_summary.getD 2 defaultSummary).annual_interest
        - 178.125| < 1 / 100 ∧
     |((Investment.mk 1000 100 5 3).yearly_summary.getD 2 defaultSummary).total_contribution
        - 3600| < 1 / 100 ∧
     |((Investment.mk 1000 100 5 3).yearly_summary.getD 2 defaultSummary).total_interest
        - 340.625| < 1 / 100 ∧
     |((Investment.mk 1000 100 5 3).yearly_summary.getD 2 defaultSummary).total_amount
        - 4940.625| < 1 / 100) := by
  have h : (Investment.mk 1000 100 5 3).yearly_summary =
      [⟨1, 1000, 1200, 1200, 50, 50, 2250⟩,
       ⟨2, 1000, 1200, 2400, 112.5, 162.5, 3562.5⟩,
       ⟨3, 1000, 1200, 3600, 178.125, 340.625, 4940.625⟩] := by
    norm_num [Investment.yearly_summary, Investment.yearlySummaryAux]
  rw [h]
  norm_num [List.getD_cons_zero, List.getD_cons_succ]

/-- Claim C4: from_params fails with the single error class exactly when one of
the four parameters is negative; on failure no Investment is produced (the
error constructor carries none), and the HTTP handler surfaces exactly this
failure as a 400 Bad Request, answering 200 with the summary otherwise. -/
theorem from_params_negative_iff (p : InvestmentParams) :
    (Investment.from_params p = Except.error "Negative values are not allowed" ↔
      (p.principal < 0 ∨ p.contribution < 0 ∨ p.rate < 0 ∨ p.years < 0)) ∧
    ((∃ inv, Investment.from_params p = Except.ok inv) ↔
      ¬ (p.principal < 0 ∨ p.contribution < 0 ∨ p.rate < 0 ∨ p.years < 0)) ∧
    (calculate_investment p = HttpResponse.badRequest "Negative values are not allowed" ↔
      (p.principal < 0 ∨ p.contribution < 0 ∨ p.rate < 0 ∨ p.years < 0)) := by
  by_cases hneg : p.principal < 0 ∨ p.contribution < 0 ∨ p.rate < 0 ∨ p.years < 0
  · simp [Investment.from_params, calculate_investment, hneg]
  · simp [Investment.from_params, calculate_investment, hneg]

/-- Witness for C4: the request with principal -1 is rejected by from_params
with the single error message. -/
theorem from_params_negative_iff_witness :
    Investment.from_params ⟨-1, 1, 5, 5⟩ = Except.error "Negative values are not allowed" :=
  (from_params_negative_iff ⟨-1, 1, 5, 5⟩).1.mpr (Or.inl (by norm_num))

/-- Counterexample to claim C5 as stated: the CLI construction path
Investment.from_matches performs no validation — given the flag string "-1"
for the principal it silently constructs an Investment whose principal is
negative instead of rejecting the input. -/
theorem from_matches_negative_counterexample :
    (Investment.from_matches ⟨some "-1", some "100", some "5", some "3"⟩).principal < 0 := by
  decide

/-- Claim C5 (amended): every Investment constructed through the validating
constructor from_params satisfies the non-negativity invariant on all four
fields; the CLI path from_matches performs no such validation and can
construct an Investment with a negative field. -/
theorem from_params_invariant (p : InvestmentParams) (inv : Investment)
    (h : Investment.from_params p = Except.ok inv) :
    0 ≤ inv.principal ∧ 0 ≤ inv.contribution ∧ 0 ≤ inv.rate ∧ 0 ≤ inv.years := by
  rw [Investment.from_params] at h
  split at h
  · simp at h
  · next hneg =>
    push_neg at hneg
    injection h with h'
    subst h'
    exact ⟨hneg.1, hneg.2.1, hneg.2.2.1, hneg.2.2.2⟩

/-- Witness for the amended C5: the Investment built by from_params from
all-positive parameters has four non-negative fields. -/
theorem from_params_invariant_witness :
    0 ≤ (Investment.mk 1000 100 5 10).principal ∧
    0 ≤ (Investment.mk 1000 100 5 10).contribution ∧
    0 ≤ (Investment.mk 1000 100 5 10).rate ∧
    0 ≤ (Investment.mk 1000 100 5 10).years :=
  from_params_invariant ⟨1000, 100, 5, 10⟩ ⟨1000, 100, 5, 10⟩ rfl

/-- Claim C6 (code-bug evidence): on an empty snapshot slice the y-axis bound
that plot_summary computes is `none`, and the source immediately calls
`.unwrap()` on it, so plot_summary panics on the empty slice instead of
returning the RenderingFailure error the claim describes. -/
theorem plot_summary_empty_panics :
    plotYMax [] = none ∧ plot_summary [] = PlotOutcome.panicked :=
  ⟨rfl, rfl⟩

/-- Claim C7: for every valid Investment with rate 0, every snapshot of
yearly_summary has zero annual interest, zero cumulative interest, and a
total_amount equal to the principal plus the cumulative contributions. -/
theorem yearly_summary_rate_zero (inv : Investment)
    (hp : 0 ≤ inv.principal) (hc : 0 ≤ inv.contribution) (hy : 0 ≤ inv.years)
    (hr : inv.rate = 0) :
    ∀ s ∈ inv.yearly_summary,
      s.annual_interest = 0 ∧ s.total_interest = 0 ∧
      s.total_amount = inv.principal + s.total_contribution := by
  intro s hs
  obtain ⟨i, hi, hget⟩ := getD_of_mem _ defaultSummary s hs
  rw [yearly_summary_length inv] at hi
  rw [yearly_summary_getD inv i hi] at hget
  subst hget
  refine ⟨?_, ?_, ?_⟩
  · show (stepAmount inv)^[i] inv.principal * (inv.rate / 100) = 0
    rw [hr]
    ring
  · exact interestAccrued_rate_zero inv hr inv.principal (i + 1)
  · show (stepAmount inv)^[i + 1] inv.principal =
      inv.principal + inv.contribution * 12 * (1 + (i : ℚ))
    rw [stepAmount_iterate_rate_zero inv hr inv.principal (i + 1)]
    push_cast
    ring

/-- Witness for C7 at principal 1000, contribution 100, rate 0, years 2:
the first snapshot accrues no interest and totals 1000 plus 1200. -/
theorem yearly_summary_rate_zero_witness :
    (YearlySummary.mk 1 1000 1200 1200 0 0 2200).annual_interest = 0 ∧
    (YearlySummary.mk 1 1000 1200 1200 0 0 2200).total_interest = 0 ∧
    (YearlySummary.mk 1 1000 1200 1200 0 0 2200).total_amount =
      (Investment.mk 1000 100 0 2).principal +
        (YearlySummary.mk 1 1000 1200 1200 0 0 2200).total_contribution :=
  yearly_summary_rate_zero ⟨1000, 100, 0, 2⟩ (by norm_num) (by norm_num) (by norm_num) rfl
    ⟨1, 1000, 1200, 1200, 0, 0, 2200⟩
    (by norm_num [Investment.yearly_summary, Investment.yearlySummaryAux])

/-- Claim C8: for every valid Investment, the cumulative total_interest of the
snapshots returned by yearly_summary is monotonically non-decreasing across
successive years. -/
theorem yearly_summary_total_interest_monotone (inv : Investment)
    (hp : 0 ≤ inv.principal) (hc : 0 ≤ inv.contribution)
    (hr : 0 ≤ inv.rate) (hy : 0 ≤ inv.years) :
    ∀ i, i + 1 < inv.yearly_summary.length →
      (inv.yearly_summary.getD i defaultSummary).total_interest ≤
        (inv.yearly_summary.getD (i + 1) defaultSummary).total_interest := by
  intro i hi1
  rw [yearly_summary_length inv] at hi1
  have hi : i < inv.years.toNat := Nat.lt_of_succ_lt hi1
  rw [yearly_summary_getD inv i hi, yearly_summary_getD inv (i + 1) hi1]
  show interestAccrued inv inv.principal (i + 1) ≤
    interestAccrued inv inv.principal (i + 1 + 1)
  have hstep : interestAccrued inv inv.principal (i + 1 + 1) =
      interestAccrued inv inv.principal (i + 1) +
        (stepAmount inv)^[i + 1] inv.principal * (inv.rate / 100) := rfl
  have hbal := stepAmount_iterate_nonneg inv hp hc hr (i + 1)
  have hnn : 0 ≤ (stepAmount inv)^[i + 1] inv.principal * (inv.rate / 100) := by
    positivity
  rw [hstep]
  linarith

/-- Witness for C8 at principal 1000, contribution 100, rate 5, years 3:
total_interest does not decrease from year 1 to year 2. -/
theorem yearly_summary_total_interest_monotone_witness :
    ((Investment.mk 1000 100 5 3).yearly_summary.getD 0 defaultSummary).total_interest ≤
      ((Investment.mk 1000 100 5 3).yearly_summary.getD 1 defaultSummary).total_interest :=
  yearly_summary_total_interest_monotone ⟨1000, 100, 5, 3⟩
    (by norm_num) (by norm_num) (by norm_num) (by norm_num) 0 (by decide)

/-- Claim C9: every snapshot's total_contribution equals its
annual_contribution times its year exactly, where annual_contribution is the
monthly contribution times 12. -/
theorem yearly_summary_total_contribution_exact (inv : Investment) :
    ∀ s ∈ inv.yearly_summary,
      s.annual_contribution = inv.contribution * 12 ∧
      s.total_contribution = s.annual_contribution * (s.year : ℚ) := by
  intro s hs
  obtain ⟨i, hi, hget⟩ := getD_of_mem _ defaultSummary s hs
  rw [yearly_summary_length inv] at hi
  rw [yearly_summary_getD inv i hi] at hget
  subst hget
  refine ⟨rfl, ?_⟩
  show inv.contribution * 12 * (1 + (i : ℚ)) =
    inv.contribution * 12 * (((1 + (i : ℤ) : ℤ) : ℚ))
  push_cast
  ring

/-- Witness for C9: the year-1 snapshot of the 1000/100/5/3 scenario has
annual_contribution 1200 and total_contribution 1200 × 1. -/
theorem yearly_summary_total_contribution_exact_witness :
    (YearlySummary.mk 1 1000 1200 1200 50 50 2250).annual_contribution =
      (Investment.mk 1000 100 5 3).contribution * 12 ∧
    (YearlySummary.mk 1 1000 1200 1200 50 50 2250).total_contribution =
      (YearlySummary.mk 1 1000 1200 1200 50 50 2250).annual_contribution *
        (((YearlySummary.mk 1 1000 1200 1200 50 50 2250).year : ℤ) : ℚ) :=
  yearly_summary_total_contribution_exact ⟨1000, 100, 5, 3⟩
    ⟨1, 1000, 1200, 1200, 50, 50, 2250⟩
    (by norm_num [Investment.yearly_summary, Investment.yearlySummaryAux])

/-- Claim C10: accounting identity — every snapshot of yearly_summary has its
total_amount exactly decomposable as principal plus cumulative contributions
plus cumulative interest. -/
theorem yearly_summary_amount_decomposition (inv : Investment) :
    ∀ s ∈ inv.yearly_summary,
      s.total_amount = inv.principal + s.total_contribution + s.total_interest := by
  intro s hs
  obtain ⟨i, hi, hget⟩ := getD_of_mem _ defaultSummary s hs
  rw [yearly_summary_length inv] at hi
  rw [yearly_summary_getD inv i hi] at hget
  subst hget
  show (stepAmount inv)^[i + 1] inv.principal =
    inv.principal + inv.contribution * 12 * (1 + (i : ℚ)) +
      interestAccrued inv inv.principal (i + 1)
  rw [stepAmount_iterate_decomp inv (i + 1)]
  push_cast
  ring

/-- Witness for C10: the year-1 snapshot of the 1000/100/5/3 scenario
satisfies 2250 = 1000 + 1200 + 50. -/
theorem yearly_summary_amount_decomposition_witness :
    (YearlySummary.mk 1 1000 1200 1200 50 50 2250).total_amount =
      (Investment.mk 1000 100 5 3).principal +
        (YearlySummary.mk 1 1000 1200 1200 50 50 2250).total_contribution +
        (YearlySummary.mk 1 1000 1200 1200 50 50 2250).total_interest :=
  yearly_summary_amount_decomposition ⟨1000, 100, 5, 3⟩
    ⟨1, 1000, 1200, 1200, 50, 50, 2250⟩
    (by norm_num [Investment.yearly_summary, Investment.yearlySummaryAux])
